import Mathlib

/-!
Shallow embedding of the Sempo transfer-limit policy engine
(`app/server/utils/transfer_limits.py`), together with theorems checking the
natural-language specification against it.

Modelling conventions:
* Python exceptions are modelled with `Option`: a predicate that can raise an
  `AttributeError` has codomain `Option Bool`, with `none` standing for the
  raise.  Python `and` / `or` / `not` on such values short-circuit exactly as
  the combinators `pyAnd` / `pyOr` / `pyNot` below do.
* SQL aggregation is modelled over an explicit list of persisted
  `CreditTransfer` rows; `SUM` over an empty row set is SQL `NULL`, modelled
  as `none`.
* Timestamps are integers measured in days; `datetime.today()` is the `now`
  field of the environment, so the filter `created >= today - timedelta(days)`
  becomes `now - days ≤ created`.
* Python `float` values that reach money arithmetic (`balance_fraction`,
  `LIMIT_EXCHANGE_RATE`) are modelled as exact rationals, and Python `int()`
  truncation toward zero is `pyInt`.
-/

namespace Sempo

/-- `TransferTypeEnum` from `server.utils.transfer_enums`. -/
inductive TransferTypeEnum
  | PAYMENT
  | DEPOSIT
  | WITHDRAWAL
deriving DecidableEq, Repr

/-- `TransferSubTypeEnum` from `server.utils.transfer_enums`. -/
inductive TransferSubTypeEnum
  | STANDARD
  | AGENT_IN
  | AGENT_OUT
  | RECLAMATION
deriving DecidableEq, Repr

/-- `TransferStatusEnum` from `server.utils.transfer_enums` (the engine only
distinguishes `REJECTED` from the rest). -/
inductive TransferStatusEnum
  | PENDING
  | COMPLETE
  | REJECTED
deriving DecidableEq, Repr

/-- `TokenType` from `server.models.token`. -/
inductive TokenType
  | LIQUID
  | RESERVE
deriving DecidableEq, Repr

/-- A token: carries a name and a token type. -/
structure Token where
  name : String
  token_type : TokenType
deriving DecidableEq, Repr

/-- One KYC application record, as read by theKYC predicates:
`kyc_status`, `type` and `multiple_documents_verified`. -/
structure KycApplication where
  kyc_status : String
  type : String
  multiple_documents_verified : Bool
deriving DecidableEq, Repr

/-- The sender/recipient user, restricted to the fields the engine reads.
`roles_admin_sempoadmin` is modelled from the spec: it stands for
`AccessControl.has_sufficient_tier(user.roles, 'ADMIN', 'sempoadmin')`
("holds an admin-tier role at or above the configured floor"), whose code is
not part of the engine. -/
structure User where
  id : Nat
  roles_admin_sempoadmin : Bool
  has_group_account_role : Bool
  is_phone_verified : Bool
  kyc_applications : List KycApplication
deriving DecidableEq, Repr

/-- A credit transfer snapshot, restricted to the fields the engine reads.
`created` is a timestamp in days; `sender_transfer_account_balance` is
`transfer.sender_transfer_account.balance`. -/
structure CreditTransfer where
  transfer_amount : Int
  transfer_type : TransferTypeEnum
  transfer_subtype : Option TransferSubTypeEnum
  transfer_status : TransferStatusEnum
  token : Option Token
  sender_user : Option User
  recipient_user : Option User
  sender_transfer_account_balance : Int
  created : Int
  exclude_from_limit_calcs : Bool
deriving DecidableEq, Repr

/-- Python short-circuit `and` on possibly-raising boolean expressions:
if the left operand raises, the whole expression raises; if it is falsy the
right operand is never evaluated. -/
def pyAnd (a b : Option Bool) : Option Bool :=
  match a with
  | none => none
  | some false => some false
  | some true => b

/-- Python short-circuit `or` on possibly-raising boolean expressions. -/
def pyOr (a b : Option Bool) : Option Bool :=
  match a with
  | none => none
  | some true => some true
  | some false => b

/-- Python `not` on a possibly-raising boolean expression. -/
def pyNot (a : Option Bool) : Option Bool :=
  a.map (fun x => !x)

/-- Python `int()` applied to an exact rational: truncation toward zero. -/
def pyInt (q : Rat) : Int :=
  if 0 ≤ q then q.floor else q.ceil

@[simp] theorem pyAnd_none (b : Option Bool) : pyAnd none b = none := rfl

@[simp] theorem pyAnd_false (b : Option Bool) : pyAnd (some false) b = some false := rfl

@[simp] theorem pyAnd_true (b : Option Bool) : pyAnd (some true) b = b := rfl

@[simp] theorem pyOr_none (b : Option Bool) : pyOr none b = none := rfl

@[simp] theorem pyOr_true (b : Option Bool) : pyOr (some true) b = some true := rfl

@[simp] theorem pyOr_false (b : Option Bool) : pyOr (some false) b = b := rfl

@[simp] theorem pyNot_some (b : Bool) : pyNot (some b) = some (!b) := rfl

@[simp] theorem pyNot_none : pyNot none = none := rfl

/-! ### Simple checks (`transfer_limits.py`, lines 57-112) -/

/-- `sempo_admin_involved`: true when the recipient or the sender exists and
holds an admin role at or above `sempoadmin`.  Total: both attribute accesses
are guarded. -/
def sempo_admin_involved (ct : CreditTransfer) : Option Bool :=
  match ct.recipient_user with
  | some u =>
    if u.roles_admin_sempoadmin then some true
    else
      match ct.sender_user with
      | some v => if v.roles_admin_sempoadmin then some true else some false
      | none => some false
  | none =>
    match ct.sender_user with
    | some v => if v.roles_admin_sempoadmin then some true else some false
    | none => some false

/-- `sender_user_exists`: returns `credit_transfer.sender_user`, used only for
its truthiness. -/
def sender_user_exists (ct : CreditTransfer) : Option Bool :=
  some ct.sender_user.isSome

/-- `user_has_group_account_role`: reads
`credit_transfer.sender_user.has_group_account_role` with no `None` guard, so
it raises (`none`) when `sender_user` is `None`. -/
def user_has_group_account_role (ct : CreditTransfer) : Option Bool :=
  ct.sender_user.map (fun u => u.has_group_account_role)

/-- `user_phone_is_verified`: reads
`credit_transfer.sender_user.is_phone_verified` with no `None` guard, so it
raises (`none`) when `sender_user` is `None`. -/
def user_phone_is_verified (ct : CreditTransfer) : Option Bool :=
  ct.sender_user.map (fun u => u.is_phone_verified)

/-- The private helper `_sender_matches_kyc_criteria`: existence of a KYC
application satisfying the criteria; `False` when there is no sender. -/
def sender_matches_kyc_criteria (ct : CreditTransfer)
    (criteria : KycApplication → Bool) : Option Bool :=
  match ct.sender_user with
  | some u => some (u.kyc_applications.any criteria)
  | none => some false

/-- `user_individual_kyc_is_verified`. -/
def user_individual_kyc_is_verified (ct : CreditTransfer) : Option Bool :=
  sender_matches_kyc_criteria ct (fun app =>
    app.kyc_status == "VERIFIED" && app.type == "INDIVIDUAL"
      && !app.multiple_documents_verified)

/-- `user_business_or_multidoc_kyc_verified`. -/
def user_business_or_multidoc_kyc_verified (ct : CreditTransfer) : Option Bool :=
  sender_matches_kyc_criteria ct (fun app =>
    app.kyc_status == "VERIFIED"
      && (app.type == "BUSINESS" || app.multiple_documents_verified))

/-- `token_is_liquid_type`: guarded by the truthiness of `token`. -/
def token_is_liquid_type (ct : CreditTransfer) : Option Bool :=
  match ct.token with
  | some tok => some (tok.token_type == TokenType.LIQUID)
  | none => some false

/-- `token_is_reserve_type`: guarded by the truthiness of `token`. -/
def token_is_reserve_type (ct : CreditTransfer) : Option Bool :=
  match ct.token with
  | some tok => some (tok.token_type == TokenType.RESERVE)
  | none => some false

/-- `transfer_is_agent_out_subtype`. -/
def transfer_is_agent_out_subtype (ct : CreditTransfer) : Option Bool :=
  some (ct.transfer_subtype == some TransferSubTypeEnum.AGENT_OUT)

/-! ### Composite checks (`transfer_limits.py`, lines 116-152) -/

/-- `base_check`: sender exists and no sempoadmin is involved. -/
def base_check (ct : CreditTransfer) : Option Bool :=
  pyAnd (sender_user_exists ct) (pyNot (sempo_admin_involved ct))

/-- `is_user_and_any_token`. -/
def is_user_and_any_token (ct : CreditTransfer) : Option Bool :=
  pyAnd (base_check ct)
    (pyOr (token_is_reserve_type ct) (token_is_liquid_type ct))

/-- `is_user_and_liquid_token`. -/
def is_user_and_liquid_token (ct : CreditTransfer) : Option Bool :=
  pyAnd (pyAnd (base_check ct) (token_is_liquid_type ct))
    (pyNot (user_has_group_account_role ct))

/-- `is_group_and_liquid_token`. -/
def is_group_and_liquid_token (ct : CreditTransfer) : Option Bool :=
  pyAnd (pyAnd (base_check ct) (token_is_liquid_type ct))
    (user_has_group_account_role ct)

/-- `is_any_token_and_user_is_not_phone_and_not_kyc_verified`. -/
def is_any_token_and_user_is_not_phone_and_not_kyc_verified
    (ct : CreditTransfer) : Option Bool :=
  pyAnd (pyAnd (is_user_and_any_token ct) (pyNot (user_phone_is_verified ct)))
    (pyNot (user_individual_kyc_is_verified ct))

/-- `is_any_token_and_user_is_phone_but_not_kyc_verified`. -/
def is_any_token_and_user_is_phone_but_not_kyc_verified
    (ct : CreditTransfer) : Option Bool :=
  pyAnd (pyAnd (is_user_and_any_token ct) (user_phone_is_verified ct))
    (pyNot (pyOr (user_individual_kyc_is_verified ct)
      (user_business_or_multidoc_kyc_verified ct)))

/-- `is_any_token_and_user_is_kyc_verified`. -/
def is_any_token_and_user_is_kyc_verified (ct : CreditTransfer) : Option Bool :=
  pyAnd (is_user_and_any_token ct) (user_individual_kyc_is_verified ct)

/-- `is_any_token_and_user_is_kyc_business_verified`. -/
def is_any_token_and_user_is_kyc_business_verified
    (ct : CreditTransfer) : Option Bool :=
  pyAnd (is_user_and_any_token ct) (user_business_or_multidoc_kyc_verified ct)

/-! ### Limit filters (`transfer_limits.py`, lines 51-52 and 155-191)

Each Python filter function returns a list of SQLAlchemy criteria; here each
criterion is a boolean predicate on a persisted `CreditTransfer` row.
`matching_sender_user_filter` compares the sender foreign key, hence the
comparison of user ids (with SQL `IS NULL` semantics when the sender is
absent). -/

/-- `combine_filter_lists`: concatenates filter lists (a fold of list append
starting from the empty list). -/
def combine_filter_lists
    (filter_lists : List (List (CreditTransfer → Bool))) :
    List (CreditTransfer → Bool) :=
  filter_lists.foldl (fun f i => f ++ i) []

/-- `after_time_period_filter`: `created >= today - timedelta(days=days)`,
with `today` supplied as `now`. -/
def after_time_period_filter (now days : Int) : List (CreditTransfer → Bool) :=
  [fun row => decide (now - days ≤ row.created)]

/-- `matching_sender_user_filter`. -/
def matching_sender_user_filter (transfer : CreditTransfer) :
    List (CreditTransfer → Bool) :=
  [fun row => row.sender_user.map User.id == transfer.sender_user.map User.id]

/-- `regular_payment_filter`: only constrains the subtype to `STANDARD`. -/
def regular_payment_filter (_transfer : CreditTransfer) :
    List (CreditTransfer → Bool) :=
  [fun row => row.transfer_subtype == some TransferSubTypeEnum.STANDARD]

/-- `matching_transfer_type_filter`. -/
def matching_transfer_type_filter (transfer : CreditTransfer) :
    List (CreditTransfer → Bool) :=
  [fun row => row.transfer_type == transfer.transfer_type]

/-- `matching_transfer_type_and_subtype_filter`. -/
def matching_transfer_type_and_subtype_filter (transfer : CreditTransfer) :
    List (CreditTransfer → Bool) :=
  [fun row => row.transfer_type == transfer.transfer_type,
   fun row => row.transfer_subtype == transfer.transfer_subtype]

/-- `withdrawal_or_agent_out_and_not_excluded_filter`. -/
def withdrawal_or_agent_out_and_not_excluded_filter
    (_transfer : CreditTransfer) : List (CreditTransfer → Bool) :=
  [fun row => row.transfer_type == TransferTypeEnum.WITHDRAWAL
      || row.transfer_subtype == some TransferSubTypeEnum.AGENT_OUT,
   fun row => row.exclude_from_limit_calcs == false]

/-- `not_rejected_filter`. -/
def not_rejected_filter : List (CreditTransfer → Bool) :=
  [fun row => !(row.transfer_status == TransferStatusEnum.REJECTED)]

/-- The aggregation filters that the registry ever installs on a limit, as
data so that limits are comparable and printable. -/
inductive AggregationFilter
  | matchingTransferType
  | matchingTransferTypeAndSubtype
  | regularPayment
  | withdrawalOrAgentOutAndNotExcluded
deriving DecidableEq, Repr

/-- Interpretation of an `AggregationFilter` as the Python filter function it
names. -/
def AggregationFilter.toFilter :
    AggregationFilter → CreditTransfer → List (CreditTransfer → Bool)
  | .matchingTransferType => matching_transfer_type_filter
  | .matchingTransferTypeAndSubtype => matching_transfer_type_and_subtype_filter
  | .regularPayment => regular_payment_filter
  | .withdrawalOrAgentOutAndNotExcluded =>
      withdrawal_or_agent_out_and_not_excluded_filter

/-! ### Query construction and aggregation
(`transfer_limits.py`, lines 382-419, 443-458, 603-612) -/

/-- The persisted state the SQL queries run against: the `credit_transfers`
table and the current time (`datetime.today()`), in days. -/
structure LimitEnv where
  rows : List CreditTransfer
  now : Int

/-- Applying a list of filter criteria to the table: a row is kept when every
criterion holds (`Query.filter(*filter_list)`). -/
def runFilters (filters : List (CreditTransfer → Bool))
    (rows : List CreditTransfer) : List CreditTransfer :=
  rows.filter (fun row => filters.all (fun f => f row))

/-- `AggregateLimit.query_constructor_filter_specifiable`: the rows selected
by sender match, non-rejection, the time window, and the custom filter. -/
def query_rows (env : LimitEnv) (time_period_days : Int)
    (custom : CreditTransfer → List (CreditTransfer → Bool))
    (transfer : CreditTransfer) : List CreditTransfer :=
  runFilters
    (combine_filter_lists
      [matching_sender_user_filter transfer,
       not_rejected_filter,
       after_time_period_filter env.now time_period_days,
       custom transfer])
    env.rows

/-- SQL `SUM(transfer_amount)` over a selected row set: `NULL` (`none`) when
no row is selected. -/
def sqlSumAmount (rows : List CreditTransfer) : Option Int :=
  match rows with
  | [] => none
  | _ => some ((rows.map CreditTransfer.transfer_amount).sum)

/-- SQL `COUNT(id)` over a selected row set (never `NULL`). -/
def sqlCount (rows : List CreditTransfer) : Int :=
  rows.length

/-- `AggregateTransferAmountMixin.used_aggregator`: the summed amounts of the
selected rows minus the in-flight transfer amount.  When the sum is SQL
`NULL` the Python subtraction `None - int(...)` raises a `TypeError`,
modelled as `none`. -/
def used_aggregator_amount (env : LimitEnv) (time_period_days : Int)
    (f : AggregationFilter) (transfer : CreditTransfer) : Option Int :=
  (sqlSumAmount (query_rows env time_period_days f.toFilter transfer)).map
    (fun s => s - transfer.transfer_amount)

/-- `TransferCountLimit.used_aggregator`: the count of the selected rows
minus one (self-exclusion of the in-flight transfer). -/
def used_aggregator_count (env : LimitEnv) (time_period_days : Int)
    (f : AggregationFilter) (transfer : CreditTransfer) : Int :=
  sqlCount (query_rows env time_period_days f.toFilter transfer) - 1

/-- `MinimumSentLimit.available_base`: the summed amounts of the rows selected
by the reference (minimum-sent) aggregation filter, with SQL `NULL` coalesced
to `0` by the trailing `or 0`. -/
def minimum_sent_available_base (env : LimitEnv) (time_period_days : Int)
    (minimum_sent_aggregation_filter : AggregationFilter)
    (transfer : CreditTransfer) : Int :=
  (sqlSumAmount
    (query_rows env time_period_days
      minimum_sent_aggregation_filter.toFilter transfer)).getD 0

/-- `BalanceFractionLimit._total_from_balance`: `int(balance_fraction *
balance)`. -/
def total_from_balance (balance_fraction : Rat) (balance : Int) : Int :=
  pyInt (balance_fraction * (balance : Rat))

/-! ### Limit rules (`transfer_limits.py`, lines 194-647) -/

/-- One element of `applied_to_transfer_types`: either a bare
`TransferTypeEnum` or a `(TransferTypeEnum, TransferSubTypeEnum)` tuple. -/
inductive AppliedTo
  | ty (t : TransferTypeEnum)
  | pair (t : TransferTypeEnum) (s : TransferSubTypeEnum)
deriving DecidableEq, Repr

/-- The variant-specific configuration of a limit, with all amount ceilings
already exchange-rate scaled to `Int` by the constructors below. -/
inductive LimitKind
  | noTransferAllowed
  | maximumAmountPerTransfer (maximum_amount : Int)
  | totalAmount (time_period_days : Int) (total_amount : Int)
      (aggregation_filter : AggregationFilter)
  | minimumSent (time_period_days : Int)
      (aggregation_filter : AggregationFilter)
      (minimum_sent_aggregation_filter : AggregationFilter)
  | balanceFraction (time_period_days : Int) (balance_fraction : Rat)
      (aggregation_filter : AggregationFilter)
  | transferCount (time_period_days : Int) (transfer_count : Int)
      (aggregation_filter : AggregationFilter)
deriving DecidableEq, Repr

/-- A configured limit rule: `BaseTransferLimit.__init__` state plus the
variant data. -/
structure TransferLimit where
  name : String
  applied_to_transfer_types : List AppliedTo
  application_filter : CreditTransfer → Option Bool
  kind : LimitKind

/-- `BaseTransferLimit.applies_to_transfer`: transfer type (or type/subtype
pair) membership in `applied_to_transfer_types`, and then the application
filter.  Python `and` short-circuits, so the filter only runs (and can only
raise) when the membership test passes; a transfer with no subtype can only
match a bare-type entry, since the tuple `(type, None)` equals no stored
tuple. -/
def TransferLimit.applies_to_transfer (l : TransferLimit)
    (transfer : CreditTransfer) : Option Bool :=
  if l.applied_to_transfer_types.contains (AppliedTo.ty transfer.transfer_type)
      || (match transfer.transfer_subtype with
          | some st =>
            l.applied_to_transfer_types.contains
              (AppliedTo.pair transfer.transfer_type st)
          | none => false)
  then l.application_filter transfer
  else some false

/-- The exception taxonomy of `server.exceptions`, restricted to the
structured fields the engine supplies.  `token` is
`transfer.token.map Token.name` (every raising site reads
`transfer.token.name`). -/
inductive TransferLimitError
  | noTransferAllowedLimitError (token : Option String)
  | maximumPerTransferLimitError (maximum_amount_limit : Int)
      (token : Option String)
  | transferAmountLimitError (transfer_amount_limit : Int)
      (transfer_amount_avail : Int) (limit_time_period_days : Int)
      (token : Option String)
  | minimumSentLimitError (transfer_amount_limit : Int)
      (transfer_amount_avail : Int) (limit_time_period_days : Int)
      (token : Option String)
  | transferBalanceFractionLimitError (transfer_balance_fraction_limit : Rat)
      (transfer_amount_avail : Int) (limit_time_period_days : Int)
      (token : Option String)
  | transferCountLimitError (transfer_count_limit : Int)
      (limit_time_period_days : Int) (token : Option String)
deriving DecidableEq, Repr

/-- The outcome of `validate_transfer`: normal return, a raised limit
exception, or the Python `TypeError` raised by `None - int(...)` inside
`AggregateTransferAmountMixin.used_aggregator`. -/
inductive ValidationResult
  | ok
  | limitError (e : TransferLimitError)
  | typeError
deriving DecidableEq, Repr

/-- The `available` method of each variant.  For aggregate amount limits this
is `available_base(transfer) - used_aggregator(transfer, query_constructor)`,
which propagates the `TypeError` (`none`) of the aggregator. -/
def TransferLimit.available (env : LimitEnv) (l : TransferLimit)
    (transfer : CreditTransfer) : Option Int :=
  match l.kind with
  | .noTransferAllowed => some 0
  | .maximumAmountPerTransfer m => some m
  | .totalAmount days total f =>
      (used_aggregator_amount env days f transfer).map (fun u => total - u)
  | .minimumSent days f refF =>
      (used_aggregator_amount env days f transfer).map
        (fun u => minimum_sent_available_base env days refF transfer - u)
  | .balanceFraction days frac f =>
      (used_aggregator_amount env days f transfer).map
        (fun u =>
          total_from_balance frac transfer.sender_transfer_account_balance - u)
  | .transferCount days n f =>
      some (n - used_aggregator_count env days f transfer)

/-- The `case_will_use` method of each variant: `1` for
`NoTransferAllowedLimit` and `TransferCountLimit`, the transfer amount for
the amount-based variants. -/
def TransferLimit.case_will_use (l : TransferLimit)
    (transfer : CreditTransfer) : Int :=
  match l.kind with
  | .noTransferAllowed => 1
  | .transferCount _ _ _ => 1
  | _ => transfer.transfer_amount

/-- The `throw_validation_error` method of each variant, as the structured
exception value it raises. -/
def TransferLimit.throw_error (env : LimitEnv) (l : TransferLimit)
    (transfer : CreditTransfer) (available : Int) : TransferLimitError :=
  match l.kind with
  | .noTransferAllowed =>
      .noTransferAllowedLimitError (transfer.token.map Token.name)
  | .maximumAmountPerTransfer m =>
      .maximumPerTransferLimitError m (transfer.token.map Token.name)
  | .totalAmount days total _ =>
      .transferAmountLimitError total available days
        (transfer.token.map Token.name)
  | .minimumSent days _ refF =>
      .minimumSentLimitError
        (minimum_sent_available_base env days refF transfer) available days
        (transfer.token.map Token.name)
  | .balanceFraction days frac _ =>
      .transferBalanceFractionLimitError frac available days
        (transfer.token.map Token.name)
  | .transferCount days n _ =>
      .transferCountLimitError n days (transfer.token.map Token.name)

/-- `BaseTransferLimit.validate_transfer`: compute `available`, and raise the
variant exception when it is below `case_will_use`. -/
def TransferLimit.validate_transfer (env : LimitEnv) (l : TransferLimit)
    (transfer : CreditTransfer) : ValidationResult :=
  match l.available env transfer with
  | none => .typeError
  | some a =>
      if a < l.case_will_use transfer then
        .limitError (l.throw_error env transfer a)
      else
        .ok

/-! ### Limit constructors

Each mirrors the `__init__` of the corresponding Python class.
`config.LIMIT_EXCHANGE_RATE` and `config.TRANSFER_LIMITS` live outside the
engine, so the constructors that read them take a `Config`. -/

/-- The configuration the module reads: the global exchange-rate scalar and
the map from tier keys (for example "0.P7") to configured thresholds. -/
structure Config where
  LIMIT_EXCHANGE_RATE : Rat
  TRANSFER_LIMITS : String → Rat

/-- `NoTransferAllowedLimit.__init__`. -/
def NoTransferAllowedLimit (name : String)
    (applied_to_transfer_types : List AppliedTo)
    (application_filter : CreditTransfer → Option Bool) : TransferLimit :=
  ⟨name, applied_to_transfer_types, application_filter,
   LimitKind.noTransferAllowed⟩

/-- `MaximumAmountPerTransferLimit.__init__`:
`self.maximum_amount = int(maximum_amount * config.LIMIT_EXCHANGE_RATE)`. -/
def MaximumAmountPerTransferLimit (cfg : Config) (name : String)
    (applied_to_transfer_types : List AppliedTo)
    (application_filter : CreditTransfer → Option Bool)
    (maximum_amount : Rat) : TransferLimit :=
  ⟨name, applied_to_transfer_types, application_filter,
   LimitKind.maximumAmountPerTransfer
     (pyInt (maximum_amount * cfg.LIMIT_EXCHANGE_RATE))⟩

/-- `TotalAmountLimit.__init__`:
`self._total_amount = int(total_amount * config.LIMIT_EXCHANGE_RATE)`. -/
def TotalAmountLimit (cfg : Config) (name : String)
    (applied_to_transfer_types : List AppliedTo)
    (application_filter : CreditTransfer → Option Bool)
    (time_period_days : Int) (total_amount : Rat)
    (aggregation_filter : AggregationFilter) : TransferLimit :=
  ⟨name, applied_to_transfer_types, application_filter,
   LimitKind.totalAmount time_period_days
     (pyInt (total_amount * cfg.LIMIT_EXCHANGE_RATE)) aggregation_filter⟩

/-- `MinimumSentLimit.__init__`. -/
def MinimumSentLimit (name : String)
    (applied_to_transfer_types : List AppliedTo)
    (application_filter : CreditTransfer → Option Bool)
    (time_period_days : Int) (aggregation_filter : AggregationFilter)
    (minimum_sent_aggregation_filter : AggregationFilter) : TransferLimit :=
  ⟨name, applied_to_transfer_types, application_filter,
   LimitKind.minimumSent time_period_days aggregation_filter
     minimum_sent_aggregation_filter⟩

/-- `BalanceFractionLimit.__init__`. -/
def BalanceFractionLimit (name : String)
    (applied_to_transfer_types : List AppliedTo)
    (application_filter : CreditTransfer → Option Bool)
    (time_period_days : Int) (balance_fraction : Rat)
    (aggregation_filter : AggregationFilter) : TransferLimit :=
  ⟨name, applied_to_transfer_types, application_filter,
   LimitKind.balanceFraction time_period_days balance_fraction
     aggregation_filter⟩

/-- `TransferCountLimit.__init__`. -/
def TransferCountLimit (name : String)
    (applied_to_transfer_types : List AppliedTo)
    (application_filter : CreditTransfer → Option Bool)
    (time_period_days : Int) (transfer_count : Int)
    (aggregation_filter : AggregationFilter) : TransferLimit :=
  ⟨name, applied_to_transfer_types, application_filter,
   LimitKind.transferCount time_period_days transfer_count
     aggregation_filter⟩

/-! ### The registry (`transfer_limits.py`, lines 34-48 and 650-726) -/

/-- `STANDARD_PAYMENT`. -/
def STANDARD_PAYMENT : AppliedTo :=
  AppliedTo.pair TransferTypeEnum.PAYMENT TransferSubTypeEnum.STANDARD

/-- `AGENT_OUT_PAYMENT`. -/
def AGENT_OUT_PAYMENT : AppliedTo :=
  AppliedTo.pair TransferTypeEnum.PAYMENT TransferSubTypeEnum.AGENT_OUT

/-- `AGENT_IN_PAYMENT`. -/
def AGENT_IN_PAYMENT : AppliedTo :=
  AppliedTo.pair TransferTypeEnum.PAYMENT TransferSubTypeEnum.AGENT_IN

/-- `RECLAMATION_PAYMENT`. -/
def RECLAMATION_PAYMENT : AppliedTo :=
  AppliedTo.pair TransferTypeEnum.PAYMENT TransferSubTypeEnum.RECLAMATION

/-- `GENERAL_PAYMENTS`. -/
def GENERAL_PAYMENTS : List AppliedTo :=
  [STANDARD_PAYMENT, AGENT_OUT_PAYMENT, AGENT_IN_PAYMENT, RECLAMATION_PAYMENT]

/-- The module-level `LIMITS` list, parameterised by the configuration it
reads at construction time.  Default arguments of the Python constructors
(`aggregation_filter=matching_transfer_type_filter`,
`minimum_sent_aggregation_filter=regular_payment_filter`) are spelled out. -/
def LIMITS (cfg : Config) : List TransferLimit :=
  [TotalAmountLimit cfg "Sempo Level 0: P7" GENERAL_PAYMENTS
     is_any_token_and_user_is_not_phone_and_not_kyc_verified 7
     (cfg.TRANSFER_LIMITS "0.P7") AggregationFilter.matchingTransferType,
   TotalAmountLimit cfg "Sempo Level 0: P30" GENERAL_PAYMENTS
     is_any_token_and_user_is_not_phone_and_not_kyc_verified 30
     (cfg.TRANSFER_LIMITS "0.P30") AggregationFilter.matchingTransferType,
   NoTransferAllowedLimit "Sempo Level 0: WD30"
     [AppliedTo.ty TransferTypeEnum.WITHDRAWAL,
      AppliedTo.ty TransferTypeEnum.DEPOSIT]
     is_any_token_and_user_is_not_phone_and_not_kyc_verified,
   TotalAmountLimit cfg "Sempo Level 1: P7" GENERAL_PAYMENTS
     is_any_token_and_user_is_phone_but_not_kyc_verified 7
     (cfg.TRANSFER_LIMITS "1.P7") AggregationFilter.matchingTransferType,
   TotalAmountLimit cfg "Sempo Level 1: P30" GENERAL_PAYMENTS
     is_any_token_and_user_is_phone_but_not_kyc_verified 30
     (cfg.TRANSFER_LIMITS "1.P30") AggregationFilter.matchingTransferType,
   NoTransferAllowedLimit "Sempo Level 1: WD30"
     [AppliedTo.ty TransferTypeEnum.WITHDRAWAL,
      AppliedTo.ty TransferTypeEnum.DEPOSIT]
     is_any_token_and_user_is_phone_but_not_kyc_verified,
   TotalAmountLimit cfg "Sempo Level 2: P7" GENERAL_PAYMENTS
     is_any_token_and_user_is_kyc_verified 7
     (cfg.TRANSFER_LIMITS "2.P7") AggregationFilter.matchingTransferType,
   TotalAmountLimit cfg "Sempo Level 2: P30" GENERAL_PAYMENTS
     is_any_token_and_user_is_kyc_verified 30
     (cfg.TRANSFER_LIMITS "2.P30") AggregationFilter.matchingTransferType,
   TotalAmountLimit cfg "Sempo Level 2: WD7"
     [AppliedTo.ty TransferTypeEnum.WITHDRAWAL,
      AppliedTo.ty TransferTypeEnum.DEPOSIT]
     is_any_token_and_user_is_kyc_verified 7
     (cfg.TRANSFER_LIMITS "2.WD7") AggregationFilter.matchingTransferType,
   TotalAmountLimit cfg "Sempo Level 2: WD30"
     [AppliedTo.ty TransferTypeEnum.WITHDRAWAL,
      AppliedTo.ty TransferTypeEnum.DEPOSIT]
     is_any_token_and_user_is_kyc_verified 30
     (cfg.TRANSFER_LIMITS "2.WD30") AggregationFilter.matchingTransferType,
   TotalAmountLimit cfg "Sempo Level 3: P7" GENERAL_PAYMENTS
     is_any_token_and_user_is_kyc_business_verified 7
     (cfg.TRANSFER_LIMITS "3.P7") AggregationFilter.matchingTransferType,
   TotalAmountLimit cfg "Sempo Level 3: P30" GENERAL_PAYMENTS
     is_any_token_and_user_is_kyc_business_verified 30
     (cfg.TRANSFER_LIMITS "3.P30") AggregationFilter.matchingTransferType,
   TotalAmountLimit cfg "Sempo Level 3: WD7"
     [AppliedTo.ty TransferTypeEnum.WITHDRAWAL,
      AppliedTo.ty TransferTypeEnum.DEPOSIT]
     is_any_token_and_user_is_kyc_business_verified 7
     (cfg.TRANSFER_LIMITS "3.WD7") AggregationFilter.matchingTransferType,
   TotalAmountLimit cfg "Sempo Level 3: WD30"
     [AppliedTo.ty TransferTypeEnum.WITHDRAWAL,
      AppliedTo.ty TransferTypeEnum.DEPOSIT]
     is_any_token_and_user_is_kyc_business_verified 30
     (cfg.TRANSFER_LIMITS "3.WD30") AggregationFilter.matchingTransferType,
   NoTransferAllowedLimit "GE Liquid Token - Standard User"
     [AGENT_OUT_PAYMENT, AppliedTo.ty TransferTypeEnum.WITHDRAWAL]
     is_user_and_liquid_token,
   TransferCountLimit "GE Liquid Token - Group Account User"
     [AGENT_OUT_PAYMENT, AppliedTo.ty TransferTypeEnum.WITHDRAWAL]
     is_group_and_liquid_token 30 1
     AggregationFilter.withdrawalOrAgentOutAndNotExcluded,
   BalanceFractionLimit "GE Liquid Token - Group Account User"
     [AGENT_OUT_PAYMENT, AppliedTo.ty TransferTypeEnum.WITHDRAWAL]
     is_group_and_liquid_token 30 (1 / 2)
     AggregationFilter.withdrawalOrAgentOutAndNotExcluded,
   MinimumSentLimit "GE Liquid Token - Group Account User"
     [AGENT_OUT_PAYMENT, AppliedTo.ty TransferTypeEnum.WITHDRAWAL]
     is_group_and_liquid_token 30
     AggregationFilter.withdrawalOrAgentOutAndNotExcluded
     AggregationFilter.regularPayment,
   MaximumAmountPerTransferLimit cfg "GE Liquid Token - Group Account User"
     [AGENT_OUT_PAYMENT, AppliedTo.ty TransferTypeEnum.WITHDRAWAL]
     is_group_and_liquid_token (cfg.TRANSFER_LIMITS "LT.MaxAm")]

/-- A Python list comprehension with a possibly-raising guard: evaluated left
to right, propagating the first raise. -/
def pyFilter {α : Type} (p : α → Option Bool) : List α → Option (List α)
  | [] => some []
  | x :: xs =>
    match p x with
    | none => none
    | some true => (pyFilter p xs).map (fun l => x :: l)
    | some false => pyFilter p xs

/-- `get_transfer_limits`: the limits of the registry that apply to the
transfer. -/
def get_transfer_limits (cfg : Config) (transfer : CreditTransfer) :
    Option (List TransferLimit) :=
  pyFilter (fun l => l.applies_to_transfer transfer) (LIMITS cfg)

/-- The combined row predicate of
`AggregateLimit.query_constructor_filter_specifiable`, packaged as a single
boolean on a row (`query_rows` is exactly a `List.filter` by it). -/
def rowSelected (now time_period_days : Int)
    (custom : CreditTransfer → List (CreditTransfer → Bool))
    (transfer row : CreditTransfer) : Bool :=
  (combine_filter_lists
    [matching_sender_user_filter transfer,
     not_rejected_filter,
     after_time_period_filter now time_period_days,
     custom transfer]).all (fun f => f row)

/-- The aggregated amounts of the rows a query selects. -/
def selectedSum (env : LimitEnv) (time_period_days : Int)
    (custom : CreditTransfer → List (CreditTransfer → Bool))
    (transfer : CreditTransfer) : Int :=
  ((query_rows env time_period_days custom transfer).map
    CreditTransfer.transfer_amount).sum

/-- Stated from the words of the specification, for comparison with the code:
"the sum of amounts of the sender's non-rejected standard payments (transfers
of type Payment with subtype Standard) within the window".  The code's
`regular_payment_filter` differs: it never constrains the transfer type. -/
def spec_standard_payment_sum (env : LimitEnv) (time_period_days : Int)
    (transfer : CreditTransfer) : Int :=
  ((env.rows.filter (fun row =>
      (row.sender_user.map User.id == transfer.sender_user.map User.id)
      && !(row.transfer_status == TransferStatusEnum.REJECTED)
      && decide (env.now - time_period_days ≤ row.created)
      && row.transfer_type == TransferTypeEnum.PAYMENT
      && row.transfer_subtype == some TransferSubTypeEnum.STANDARD)).map
    CreditTransfer.transfer_amount).sum

/-! ### Concrete fixtures for witnesses and counterexamples -/

/-- A concrete configuration: exchange rate 1, every configured threshold 50. -/
def cfg0 : Config := ⟨1, fun _ => 50⟩

/-- A liquid token. -/
def tokL : Token := ⟨"GE", TokenType.LIQUID⟩

/-- A reserve token. -/
def tokR : Token := ⟨"RES", TokenType.RESERVE⟩

/-- A sempoadmin user. -/
def uAdmin : User := ⟨0, true, false, false, []⟩

/-- A plain user: no roles, no phone verification, no KYC applications. -/
def uPlain : User := ⟨1, false, false, false, []⟩

/-- A user with a verified BUSINESS KYC application and no phone
verification. -/
def uBiz : User := ⟨2, false, false, false, [⟨"VERIFIED", "BUSINESS", false⟩]⟩

/-- A group-account user on a liquid token program. -/
def uGroup : User := ⟨3, false, true, true, []⟩

/-- A phone-verified user with no KYC applications. -/
def uPhone : User := ⟨4, false, false, true, []⟩

/-- The same user after individual KYC verification. -/
def uPhoneKyc : User := ⟨4, false, false, true, [⟨"VERIFIED", "INDIVIDUAL", false⟩]⟩

/-- A payment from a plain user to a sempoadmin. -/
def tAdmin : CreditTransfer :=
  ⟨100, TransferTypeEnum.PAYMENT, some TransferSubTypeEnum.STANDARD,
   TransferStatusEnum.PENDING, some tokR, some uPlain, some uAdmin, 0, 0, false⟩

/-- A payment whose sender is business-KYC-verified but not phone-verified. -/
def tBiz : CreditTransfer :=
  ⟨100, TransferTypeEnum.PAYMENT, some TransferSubTypeEnum.STANDARD,
   TransferStatusEnum.PENDING, some tokR, some uBiz, none, 0, 0, false⟩

/-- A payment with no sender user. -/
def tNoSender : CreditTransfer :=
  ⟨100, TransferTypeEnum.PAYMENT, some TransferSubTypeEnum.STANDARD,
   TransferStatusEnum.PENDING, some tokR, none, none, 0, 0, false⟩

/-- A payment sent by the phone-verified user `uPhone`. -/
def tPhone : CreditTransfer :=
  ⟨100, TransferTypeEnum.PAYMENT, some TransferSubTypeEnum.STANDARD,
   TransferStatusEnum.PENDING, some tokR, some uPhone, none, 0, 0, false⟩

/-- The same payment after the sender became individually KYC verified. -/
def tPhoneKyc : CreditTransfer :=
  ⟨100, TransferTypeEnum.PAYMENT, some TransferSubTypeEnum.STANDARD,
   TransferStatusEnum.PENDING, some tokR, some uPhoneKyc, none, 0, 0, false⟩

/-- An in-flight withdrawal of 100 by the group-account user. -/
def tWd : CreditTransfer :=
  ⟨100, TransferTypeEnum.WITHDRAWAL, none,
   TransferStatusEnum.PENDING, some tokL, some uGroup, none, 1000, 10, false⟩

/-- A persisted DEPOSIT row carrying the STANDARD subtype (not a payment). -/
def pDep : CreditTransfer :=
  ⟨100, TransferTypeEnum.DEPOSIT, some TransferSubTypeEnum.STANDARD,
   TransferStatusEnum.COMPLETE, some tokL, some uGroup, none, 0, 9, false⟩

/-- The persisted table for the `MinimumSentLimit` counterexample: the
in-flight withdrawal plus the deposit row. -/
def envC9 : LimitEnv := ⟨[tWd, pDep], 10⟩

/-- A `MinimumSentLimit` with the default reference filter
(`regular_payment_filter`) and the default aggregation filter
(`matching_transfer_type_filter`). -/
def limC9 : TransferLimit :=
  MinimumSentLimit "GE Liquid Token - Group Account User"
    [AGENT_OUT_PAYMENT, AppliedTo.ty TransferTypeEnum.WITHDRAWAL]
    is_group_and_liquid_token 30
    AggregationFilter.matchingTransferType AggregationFilter.regularPayment

/-- A `BalanceFractionLimit` with fraction one half. -/
def limC5 : TransferLimit :=
  BalanceFractionLimit "GE Liquid Token - Group Account User"
    [AGENT_OUT_PAYMENT, AppliedTo.ty TransferTypeEnum.WITHDRAWAL]
    is_group_and_liquid_token 30 (1 / 2)
    AggregationFilter.matchingTransferType

/-- A withdrawal of `amt` by the group-account user whose transfer account
balance is `bal`. -/
def tBal (amt bal : Int) : CreditTransfer :=
  ⟨amt, TransferTypeEnum.WITHDRAWAL, none,
   TransferStatusEnum.PENDING, some tokL, some uGroup, none, bal, 10, false⟩

/-- A table holding only the freshly persisted in-flight withdrawal. -/
def envBal (amt bal : Int) : LimitEnv := ⟨[tBal amt bal], 10⟩

/-- A `MaximumAmountPerTransferLimit` built over `cfg0`: its scaled ceiling
is `int(50 * 1) = 50`. -/
def limC2 : TransferLimit :=
  MaximumAmountPerTransferLimit cfg0 "GE Liquid Token - Group Account User"
    [AGENT_OUT_PAYMENT, AppliedTo.ty TransferTypeEnum.WITHDRAWAL]
    is_group_and_liquid_token 50

/-- A `TotalAmountLimit` with window 7 built over `cfg0`: scaled ceiling 50. -/
def limC3 : TransferLimit :=
  TotalAmountLimit cfg0 "Sempo Level 1: P7" GENERAL_PAYMENTS
    is_any_token_and_user_is_phone_but_not_kyc_verified 7 50
    AggregationFilter.matchingTransferType

/-- An in-flight standard payment of `amt` by `uPhone`, created at day 10. -/
def tPay (amt : Int) : CreditTransfer :=
  ⟨amt, TransferTypeEnum.PAYMENT, some TransferSubTypeEnum.STANDARD,
   TransferStatusEnum.PENDING, some tokR, some uPhone, none, 0, 10, false⟩

/-- A persisted payment row of `amt` by `uPhone` created at day `d`. -/
def pPay (amt d : Int) : CreditTransfer :=
  ⟨amt, TransferTypeEnum.PAYMENT, some TransferSubTypeEnum.STANDARD,
   TransferStatusEnum.COMPLETE, some tokR, some uPhone, none, 0, d, false⟩

/-- A `TransferCountLimit` with count 1 and window 30. -/
def limC4 : TransferLimit :=
  TransferCountLimit "GE Liquid Token - Group Account User"
    [AGENT_OUT_PAYMENT, AppliedTo.ty TransferTypeEnum.WITHDRAWAL]
    is_group_and_liquid_token 30 1
    AggregationFilter.withdrawalOrAgentOutAndNotExcluded

/-! ### Helper lemmas -/

theorem pyAnd_some_right_false (b : Bool) :
    pyAnd (some b) (some false) = some false := by
  cases b <;> rfl

theorem pyAnd_eq_some_true (a b : Option Bool) :
    pyAnd a b = some true ↔ a = some true ∧ b = some true := by
  cases a with
  | none => simp [pyAnd]
  | some x => cases x <;> simp [pyAnd]

theorem pyOr_eq_some_false (a b : Option Bool) :
    pyOr a b = some false ↔ a = some false ∧ b = some false := by
  cases a with
  | none => simp [pyOr]
  | some x => cases x <;> simp [pyOr]

theorem pyNot_eq_some_true (a : Option Bool) :
    pyNot a = some true ↔ a = some false := by
  cases a with
  | none => simp
  | some x => cases x <;> simp

theorem pyNot_eq_some_false (a : Option Bool) :
    pyNot a = some false ↔ a = some true := by
  cases a with
  | none => simp
  | some x => cases x <;> simp

theorem pyAnd_isSome (a b : Option Bool) (ha : a.isSome) (hb : b.isSome) :
    (pyAnd a b).isSome := by
  cases a with
  | none => simp at ha
  | some x => cases x <;> simp [pyAnd, hb]

theorem pyOr_isSome (a b : Option Bool) (ha : a.isSome) (hb : b.isSome) :
    (pyOr a b).isSome := by
  cases a with
  | none => simp at ha
  | some x => cases x <;> simp [pyOr, hb]

theorem sempo_admin_involved_eq (t : CreditTransfer) :
    sempo_admin_involved t =
      some (t.recipient_user.elim false User.roles_admin_sempoadmin
        || t.sender_user.elim false User.roles_admin_sempoadmin) := by
  unfold sempo_admin_involved
  cases t.recipient_user with
  | none =>
    cases t.sender_user with
    | none => rfl
    | some v => by_cases h : v.roles_admin_sempoadmin <;> simp [h]
  | some u =>
    by_cases h : u.roles_admin_sempoadmin
    · simp [h]
    · cases t.sender_user with
      | none => simp [h]
      | some v => by_cases h2 : v.roles_admin_sempoadmin <;> simp [h, h2]

theorem sempo_admin_involved_isSome (t : CreditTransfer) :
    (sempo_admin_involved t).isSome := by
  rw [sempo_admin_involved_eq]
  rfl

theorem base_check_of_admin (t : CreditTransfer)
    (h : sempo_admin_involved t = some true) : base_check t = some false := by
  unfold base_check
  rw [h]
  simp only [pyNot_some, Bool.not_true]
  exact pyAnd_some_right_false _

theorem base_check_of_no_sender (t : CreditTransfer)
    (h : t.sender_user = none) : base_check t = some false := by
  unfold base_check sender_user_exists
  rw [h]
  rfl

theorem base_check_isSome (t : CreditTransfer) : (base_check t).isSome := by
  unfold base_check sender_user_exists
  apply pyAnd_isSome
  · rfl
  · have := sempo_admin_involved_isSome t
    cases hA : sempo_admin_involved t with
    | none => rw [hA] at this; simp at this
    | some b => simp [pyNot, hA]

theorem token_is_liquid_type_isSome (t : CreditTransfer) :
    (token_is_liquid_type t).isSome := by
  unfold token_is_liquid_type
  cases t.token <;> rfl

theorem token_is_reserve_type_isSome (t : CreditTransfer) :
    (token_is_reserve_type t).isSome := by
  unfold token_is_reserve_type
  cases t.token <;> rfl

theorem sender_matches_kyc_criteria_isSome (t : CreditTransfer)
    (criteria : KycApplication → Bool) :
    (sender_matches_kyc_criteria t criteria).isSome := by
  unfold sender_matches_kyc_criteria
  cases t.sender_user <;> rfl

theorem pyNot_isSome (a : Option Bool) : (pyNot a).isSome = a.isSome := by
  cases a <;> rfl

theorem user_has_group_account_role_of_sender (t : CreditTransfer) (u : User)
    (h : t.sender_user = some u) :
    user_has_group_account_role t = some u.has_group_account_role := by
  simp [user_has_group_account_role, h]

theorem user_phone_is_verified_of_sender (t : CreditTransfer) (u : User)
    (h : t.sender_user = some u) :
    user_phone_is_verified t = some u.is_phone_verified := by
  simp [user_phone_is_verified, h]

theorem is_user_and_any_token_of_base_false (t : CreditTransfer)
    (h : base_check t = some false) : is_user_and_any_token t = some false := by
  unfold is_user_and_any_token
  rw [h]
  rfl

theorem is_user_and_liquid_token_of_base_false (t : CreditTransfer)
    (h : base_check t = some false) :
    is_user_and_liquid_token t = some false := by
  unfold is_user_and_liquid_token
  rw [h]
  rfl

theorem is_group_and_liquid_token_of_base_false (t : CreditTransfer)
    (h : base_check t = some false) :
    is_group_and_liquid_token t = some false := by
  unfold is_group_and_liquid_token
  rw [h]
  rfl

theorem tier0_of_any_token_false (t : CreditTransfer)
    (h : is_user_and_any_token t = some false) :
    is_any_token_and_user_is_not_phone_and_not_kyc_verified t = some false := by
  unfold is_any_token_and_user_is_not_phone_and_not_kyc_verified
  rw [h]
  rfl

theorem tier1_of_any_token_false (t : CreditTransfer)
    (h : is_user_and_any_token t = some false) :
    is_any_token_and_user_is_phone_but_not_kyc_verified t = some false := by
  unfold is_any_token_and_user_is_phone_but_not_kyc_verified
  rw [h]
  rfl

theorem tier2_of_any_token_false (t : CreditTransfer)
    (h : is_user_and_any_token t = some false) :
    is_any_token_and_user_is_kyc_verified t = some false := by
  unfold is_any_token_and_user_is_kyc_verified
  rw [h]
  rfl

theorem tier3_of_any_token_false (t : CreditTransfer)
    (h : is_user_and_any_token t = some false) :
    is_any_token_and_user_is_kyc_business_verified t = some false := by
  unfold is_any_token_and_user_is_kyc_business_verified
  rw [h]
  rfl

/-- The six application filters installed by the registry are all `False`
when `base_check` is `False`, in particular when a sempoadmin is involved or
the sender is missing. -/
theorem registry_filters_of_base_false (t : CreditTransfer)
    (h : base_check t = some false) :
    is_any_token_and_user_is_not_phone_and_not_kyc_verified t = some false ∧
    is_any_token_and_user_is_phone_but_not_kyc_verified t = some false ∧
    is_any_token_and_user_is_kyc_verified t = some false ∧
    is_any_token_and_user_is_kyc_business_verified t = some false ∧
    is_user_and_liquid_token t = some false ∧
    is_group_and_liquid_token t = some false := by
  have hAny := is_user_and_any_token_of_base_false t h
  exact ⟨tier0_of_any_token_false t hAny, tier1_of_any_token_false t hAny,
    tier2_of_any_token_false t hAny, tier3_of_any_token_false t hAny,
    is_user_and_liquid_token_of_base_false t h,
    is_group_and_liquid_token_of_base_false t h⟩

theorem is_user_and_any_token_isSome (t : CreditTransfer) :
    (is_user_and_any_token t).isSome := by
  unfold is_user_and_any_token
  exact pyAnd_isSome _ _ (base_check_isSome t)
    (pyOr_isSome _ _ (token_is_reserve_type_isSome t)
      (token_is_liquid_type_isSome t))

theorem is_user_and_liquid_token_isSome (t : CreditTransfer) :
    (is_user_and_liquid_token t).isSome := by
  cases hs : t.sender_user with
  | none =>
    rw [is_user_and_liquid_token_of_base_false t (base_check_of_no_sender t hs)]
    rfl
  | some u =>
    unfold is_user_and_liquid_token
    refine pyAnd_isSome _ _
      (pyAnd_isSome _ _ (base_check_isSome t) (token_is_liquid_type_isSome t)) ?_
    rw [pyNot_isSome, user_has_group_account_role_of_sender t u hs]
    rfl

theorem is_group_and_liquid_token_isSome (t : CreditTransfer) :
    (is_group_and_liquid_token t).isSome := by
  cases hs : t.sender_user with
  | none =>
    rw [is_group_and_liquid_token_of_base_false t (base_check_of_no_sender t hs)]
    rfl
  | some u =>
    unfold is_group_and_liquid_token
    refine pyAnd_isSome _ _
      (pyAnd_isSome _ _ (base_check_isSome t) (token_is_liquid_type_isSome t)) ?_
    rw [user_has_group_account_role_of_sender t u hs]
    rfl

theorem tier0_isSome (t : CreditTransfer) :
    (is_any_token_and_user_is_not_phone_and_not_kyc_verified t).isSome := by
  cases hs : t.sender_user with
  | none =>
    rw [tier0_of_any_token_false t
      (is_user_and_any_token_of_base_false t (base_check_of_no_sender t hs))]
    rfl
  | some u =>
    unfold is_any_token_and_user_is_not_phone_and_not_kyc_verified
    refine pyAnd_isSome _ _ (pyAnd_isSome _ _ (is_user_and_any_token_isSome t) ?_) ?_
    · rw [pyNot_isSome, user_phone_is_verified_of_sender t u hs]
      rfl
    · rw [pyNot_isSome]
      exact sender_matches_kyc_criteria_isSome t _

theorem tier1_isSome (t : CreditTransfer) :
    (is_any_token_and_user_is_phone_but_not_kyc_verified t).isSome := by
  cases hs : t.sender_user with
  | none =>
    rw [tier1_of_any_token_false t
      (is_user_and_any_token_of_base_false t (base_check_of_no_sender t hs))]
    rfl
  | some u =>
    unfold is_any_token_and_user_is_phone_but_not_kyc_verified
    refine pyAnd_isSome _ _ (pyAnd_isSome _ _ (is_user_and_any_token_isSome t) ?_) ?_
    · rw [user_phone_is_verified_of_sender t u hs]
      rfl
    · rw [pyNot_isSome]
      exact pyOr_isSome _ _ (sender_matches_kyc_criteria_isSome t _)
        (sender_matches_kyc_criteria_isSome t _)

theorem tier2_isSome (t : CreditTransfer) :
    (is_any_token_and_user_is_kyc_verified t).isSome := by
  unfold is_any_token_and_user_is_kyc_verified
  exact pyAnd_isSome _ _ (is_user_and_any_token_isSome t)
    (sender_matches_kyc_criteria_isSome t _)

theorem tier3_isSome (t : CreditTransfer) :
    (is_any_token_and_user_is_kyc_business_verified t).isSome := by
  unfold is_any_token_and_user_is_kyc_business_verified
  exact pyAnd_isSome _ _ (is_user_and_any_token_isSome t)
    (sender_matches_kyc_criteria_isSome t _)

theorem query_rows_eq_filter (env : LimitEnv) (d : Int)
    (custom : CreditTransfer → List (CreditTransfer → Bool))
    (t : CreditTransfer) :
    query_rows env d custom t = env.rows.filter (rowSelected env.now d custom t) :=
  rfl

theorem sqlSumAmount_eq_none (rows : List CreditTransfer) :
    sqlSumAmount rows = none ↔ rows = [] := by
  cases rows <;> simp [sqlSumAmount]

theorem sqlSumAmount_getD (rows : List CreditTransfer) :
    (sqlSumAmount rows).getD 0 = (rows.map CreditTransfer.transfer_amount).sum := by
  cases rows <;> simp [sqlSumAmount]

theorem created_of_rowSelected (now d : Int)
    (custom : CreditTransfer → List (CreditTransfer → Bool))
    (t r : CreditTransfer) (h : rowSelected now d custom t r = true) :
    now - d ≤ r.created := by
  simp [rowSelected, combine_filter_lists, matching_sender_user_filter,
    not_rejected_filter, after_time_period_filter] at h
  omega

theorem query_rows_cons_self (t : CreditTransfer) (prior : List CreditTransfer)
    (now d : Int) (custom : CreditTransfer → List (CreditTransfer → Bool))
    (hSelf : rowSelected now d custom t t = true) :
    query_rows ⟨t :: prior, now⟩ d custom t =
      t :: query_rows ⟨prior, now⟩ d custom t := by
  rw [query_rows_eq_filter, query_rows_eq_filter]
  simp [List.filter_cons, hSelf]

theorem query_rows_cons_not_self (t : CreditTransfer)
    (prior : List CreditTransfer) (now d : Int)
    (custom : CreditTransfer → List (CreditTransfer → Bool))
    (hSelf : rowSelected now d custom t t = false) :
    query_rows ⟨t :: prior, now⟩ d custom t =
      query_rows ⟨prior, now⟩ d custom t := by
  rw [query_rows_eq_filter, query_rows_eq_filter]
  simp [List.filter_cons, hSelf]

theorem query_rows_append_stale (t : CreditTransfer)
    (prior old : List CreditTransfer) (now d : Int)
    (custom : CreditTransfer → List (CreditTransfer → Bool))
    (hOld : ∀ r ∈ old, r.created < now - d) :
    query_rows ⟨prior ++ old, now⟩ d custom t =
      query_rows ⟨prior, now⟩ d custom t := by
  rw [query_rows_eq_filter, query_rows_eq_filter]
  show (prior ++ old).filter _ = prior.filter _
  rw [List.filter_append]
  have hnil : old.filter (rowSelected now d custom t) = [] := by
    rw [List.filter_eq_nil_iff]
    intro r hr hsel
    exact absurd (created_of_rowSelected now d custom t r hsel)
      (by have := hOld r hr; omega)
  rw [hnil, List.append_nil]

theorem used_aggregator_amount_cons (t : CreditTransfer)
    (prior : List CreditTransfer) (now d : Int) (f : AggregationFilter)
    (hSelf : rowSelected now d f.toFilter t t = true) :
    used_aggregator_amount ⟨t :: prior, now⟩ d f t =
      some (selectedSum ⟨prior, now⟩ d f.toFilter t) := by
  unfold used_aggregator_amount
  rw [query_rows_cons_self t prior now d f.toFilter hSelf]
  simp [sqlSumAmount, selectedSum, query_rows_eq_filter]

theorem used_aggregator_count_cons (t : CreditTransfer)
    (prior : List CreditTransfer) (now d : Int) (f : AggregationFilter)
    (hSelf : rowSelected now d f.toFilter t t = true) :
    used_aggregator_count ⟨t :: prior, now⟩ d f t =
      (query_rows ⟨prior, now⟩ d f.toFilter t).length := by
  unfold used_aggregator_count sqlCount
  rw [query_rows_cons_self t prior now d f.toFilter hSelf]
  simp

theorem minimum_sent_base_cons_not_ref (t : CreditTransfer)
    (prior : List CreditTransfer) (now d : Int) (refF : AggregationFilter)
    (hNotRef : rowSelected now d refF.toFilter t t = false) :
    minimum_sent_available_base ⟨t :: prior, now⟩ d refF t =
      selectedSum ⟨prior, now⟩ d refF.toFilter t := by
  unfold minimum_sent_available_base
  rw [query_rows_cons_not_self t prior now d refF.toFilter hNotRef,
    sqlSumAmount_getD]
  rfl

theorem applies_to_transfer_of_filter_false (l : TransferLimit)
    (t : CreditTransfer) (h : l.application_filter t = some false) :
    l.applies_to_transfer t = some false := by
  unfold TransferLimit.applies_to_transfer
  split
  · exact h
  · rfl

theorem pyFilter_all_false {α : Type} (p : α → Option Bool) (xs : List α)
    (h : ∀ x ∈ xs, p x = some false) : pyFilter p xs = some [] := by
  induction xs with
  | nil => rfl
  | cons x xs ih =>
    have hx := h x (List.mem_cons_self x xs)
    simp only [pyFilter, hx]
    exact ih fun y hy => h y (List.mem_cons_of_mem x hy)

/-! ### Claim theorems -/

/-- C1: for every transfer in which a sempoadmin is involved (the sender or
the recipient holds an admin-tier role at or above sempoadmin),
`get_transfer_limits` returns the empty list: no rule of the `LIMITS`
registry has `applies_to_transfer` true for that transfer, because every
installed application filter goes through `base_check`, which requires
`not sempo_admin_involved`. -/
theorem C1_sempo_admin_involved_exempts_all_limits (cfg : Config)
    (t : CreditTransfer) (h : sempo_admin_involved t = some true) :
    get_transfer_limits cfg t = some [] := by
  have hb := base_check_of_admin t h
  obtain ⟨h0, h1, h2, h3, h4, h5⟩ := registry_filters_of_base_false t hb
  unfold get_transfer_limits
  apply pyFilter_all_false
  intro l hl
  simp only [LIMITS, List.mem_cons, List.not_mem_nil, or_false] at hl
  rcases hl with rfl | rfl | rfl | rfl | rfl | rfl | rfl | rfl | rfl | rfl |
    rfl | rfl | rfl | rfl | rfl | rfl | rfl | rfl | rfl
  all_goals apply applies_to_transfer_of_filter_false
  all_goals first
    | exact h0
    | exact h1
    | exact h2
    | exact h3
    | exact h4
    | exact h5

/-- Witness for C1: a concrete payment from a plain user to a sempoadmin. -/
theorem C1_witness :
    sempo_admin_involved tAdmin = some true ∧
    get_transfer_limits cfg0 tAdmin = some [] :=
  ⟨by decide, C1_sempo_admin_involved_exempts_all_limits cfg0 tAdmin (by decide)⟩

/-- C8: a limit applies to a transfer exactly when the transfer's type is
one of the rule's bare-type selectors, or the (type, subtype) pair is one of
its pair selectors, and the rule's application filter returns true; the
selector test is exact list membership. -/
theorem C8_applies_to_transfer_characterisation (l : TransferLimit)
    (t : CreditTransfer) :
    l.applies_to_transfer t = some true ↔
      ((AppliedTo.ty t.transfer_type ∈ l.applied_to_transfer_types ∨
        (∃ st, t.transfer_subtype = some st ∧
          AppliedTo.pair t.transfer_type st ∈ l.applied_to_transfer_types)) ∧
       l.application_filter t = some true) := by
  unfold TransferLimit.applies_to_transfer
  split
  case isTrue hmem =>
    have hp : AppliedTo.ty t.transfer_type ∈ l.applied_to_transfer_types ∨
        (∃ st, t.transfer_subtype = some st ∧
          AppliedTo.pair t.transfer_type st ∈ l.applied_to_transfer_types) := by
      cases hst : t.transfer_subtype with
      | none => simp [hst, List.contains, List.elem_iff] at hmem; simp [hmem]
      | some st =>
        simp [hst, List.contains, List.elem_iff] at hmem
        rcases hmem with hmem | hmem
        · exact Or.inl hmem
        · exact Or.inr ⟨st, rfl, hmem⟩
    simp [hp]
  case isFalse hmem =>
    constructor
    · intro hcontra
      exact absurd hcontra (by simp)
    · rintro ⟨hp, -⟩
      exfalso
      apply hmem
      cases hst : t.transfer_subtype with
      | none =>
        rcases hp with hp | ⟨st, hst2, -⟩
        · simp [List.contains, List.elem_iff, hp]
        · rw [hst] at hst2; cases hst2
      | some st =>
        rcases hp with hp | ⟨st2, hst2, hp⟩
        · simp [List.contains, List.elem_iff, hp]
        · rw [hst] at hst2
          cases hst2
          simp [List.contains, List.elem_iff, hp]

/-- Witness for C8 (the statement is an equivalence; this instantiates it at
a concrete applicable transfer): `limC2` applies to the concrete withdrawal
`tBal 50 0`. -/
theorem C8_witness : limC2.applies_to_transfer (tBal 50 0) = some true :=
  (C8_applies_to_transfer_characterisation limC2 (tBal 50 0)).mpr
    (by constructor
        · exact Or.inl (by decide)
        · decide)

theorem tier0_inv (t : CreditTransfer)
    (h : is_any_token_and_user_is_not_phone_and_not_kyc_verified t = some true) :
    is_user_and_any_token t = some true ∧
    user_phone_is_verified t = some false ∧
    user_individual_kyc_is_verified t = some false := by
  unfold is_any_token_and_user_is_not_phone_and_not_kyc_verified at h
  obtain ⟨h1, h2⟩ := (pyAnd_eq_some_true _ _).mp h
  obtain ⟨h3, h4⟩ := (pyAnd_eq_some_true _ _).mp h1
  exact ⟨h3, (pyNot_eq_some_true _).mp h4, (pyNot_eq_some_true _).mp h2⟩

theorem tier1_inv (t : CreditTransfer)
    (h : is_any_token_and_user_is_phone_but_not_kyc_verified t = some true) :
    is_user_and_any_token t = some true ∧
    user_phone_is_verified t = some true ∧
    user_individual_kyc_is_verified t = some false ∧
    user_business_or_multidoc_kyc_verified t = some false := by
  unfold is_any_token_and_user_is_phone_but_not_kyc_verified at h
  obtain ⟨h1, h2⟩ := (pyAnd_eq_some_true _ _).mp h
  obtain ⟨h3, h4⟩ := (pyAnd_eq_some_true _ _).mp h1
  obtain ⟨h6, h7⟩ := (pyOr_eq_some_false _ _).mp ((pyNot_eq_some_true _).mp h2)
  exact ⟨h3, h4, h6, h7⟩

theorem tier2_inv (t : CreditTransfer)
    (h : is_any_token_and_user_is_kyc_verified t = some true) :
    is_user_and_any_token t = some true ∧
    user_individual_kyc_is_verified t = some true := by
  unfold is_any_token_and_user_is_kyc_verified at h
  exact (pyAnd_eq_some_true _ _).mp h

theorem tier3_inv (t : CreditTransfer)
    (h : is_any_token_and_user_is_kyc_business_verified t = some true) :
    is_user_and_any_token t = some true ∧
    user_business_or_multidoc_kyc_verified t = some true := by
  unfold is_any_token_and_user_is_kyc_business_verified at h
  exact (pyAnd_eq_some_true _ _).mp h

/-- C6 (amended): every simple check except `user_has_group_account_role`
and `user_phone_is_verified` is total, and every composite check is total
(the unguarded sender accesses are short-circuited behind `base_check`);
composite checks return false, never an error, on a missing sender, and the
token checks return false on a missing token.  The two unguarded simple
checks raise an AttributeError when `sender_user` is `None`. -/
theorem C6_totality_amended (t : CreditTransfer) :
    (sempo_admin_involved t).isSome ∧
    (sender_user_exists t).isSome ∧
    (user_individual_kyc_is_verified t).isSome ∧
    (user_business_or_multidoc_kyc_verified t).isSome ∧
    (token_is_liquid_type t).isSome ∧
    (token_is_reserve_type t).isSome ∧
    (transfer_is_agent_out_subtype t).isSome ∧
    (base_check t).isSome ∧
    (is_user_and_any_token t).isSome ∧
    (is_user_and_liquid_token t).isSome ∧
    (is_group_and_liquid_token t).isSome ∧
    (is_any_token_and_user_is_not_phone_and_not_kyc_verified t).isSome ∧
    (is_any_token_and_user_is_phone_but_not_kyc_verified t).isSome ∧
    (is_any_token_and_user_is_kyc_verified t).isSome ∧
    (is_any_token_and_user_is_kyc_business_verified t).isSome ∧
    (t.sender_user = none →
      user_has_group_account_role t = none ∧
      user_phone_is_verified t = none ∧
      base_check t = some false ∧
      is_user_and_any_token t = some false ∧
      is_user_and_liquid_token t = some false ∧
      is_group_and_liquid_token t = some false ∧
      is_any_token_and_user_is_not_phone_and_not_kyc_verified t = some false ∧
      is_any_token_and_user_is_phone_but_not_kyc_verified t = some false ∧
      is_any_token_and_user_is_kyc_verified t = some false ∧
      is_any_token_and_user_is_kyc_business_verified t = some false) ∧
    (t.token = none →
      token_is_liquid_type t = some false ∧
      token_is_reserve_type t = some false) := by
  refine ⟨sempo_admin_involved_isSome t, rfl,
    sender_matches_kyc_criteria_isSome t _,
    sender_matches_kyc_criteria_isSome t _,
    token_is_liquid_type_isSome t, token_is_reserve_type_isSome t, rfl,
    base_check_isSome t, is_user_and_any_token_isSome t,
    is_user_and_liquid_token_isSome t, is_group_and_liquid_token_isSome t,
    tier0_isSome t, tier1_isSome t, tier2_isSome t, tier3_isSome t, ?_, ?_⟩
  · intro hs
    have hb := base_check_of_no_sender t hs
    obtain ⟨h0, h1, h2, h3, h4, h5⟩ := registry_filters_of_base_false t hb
    exact ⟨by simp [user_has_group_account_role, hs],
      by simp [user_phone_is_verified, hs], hb,
      is_user_and_any_token_of_base_false t hb, h4, h5, h0, h1, h2, h3⟩
  · intro htok
    constructor
    · unfold token_is_liquid_type
      rw [htok]
    · unfold token_is_reserve_type
      rw [htok]

/-- Counterexample for C6: on a transfer with no sender user, the simple
checks `user_has_group_account_role` and `user_phone_is_verified` raise an
AttributeError (modelled as `none`), they do not return false. -/
theorem C6_counterexample :
    user_has_group_account_role tNoSender = none ∧
    user_phone_is_verified tNoSender = none :=
  ⟨rfl, rfl⟩

/-- Witness for C6 (amended): concrete instantiation at the sender-less
transfer: the unguarded simple check raises while `base_check` and the
composite checks return false. -/
theorem C6_witness :
    user_has_group_account_role tNoSender = none ∧
    base_check tNoSender = some false ∧
    is_user_and_liquid_token tNoSender = some false := by
  obtain ⟨-, -, -, -, -, -, -, -, -, -, -, -, -, -, -, hs, -⟩ :=
    C6_totality_amended tNoSender
  obtain ⟨h1, -, h3, -, h5, -⟩ := hs rfl
  exact ⟨h1, h3, h5⟩

/-- C7 (amended): of the six pairs of composite tier predicates, the four
pairs not involving both the business tier and a tier that does not exclude
business verification are mutually exclusive; and a phone-verified sender
who becomes individually KYC verified satisfies the Tier-2 predicate and no
longer the Tier-1 predicate.  (The pairs (tier 0, tier 3) and
(tier 2, tier 3) are NOT exclusive: see the counterexample.) -/
theorem C7_tier_exclusivity_amended (t : CreditTransfer) :
    ¬(is_any_token_and_user_is_not_phone_and_not_kyc_verified t = some true ∧
      is_any_token_and_user_is_phone_but_not_kyc_verified t = some true) ∧
    ¬(is_any_token_and_user_is_not_phone_and_not_kyc_verified t = some true ∧
      is_any_token_and_user_is_kyc_verified t = some true) ∧
    ¬(is_any_token_and_user_is_phone_but_not_kyc_verified t = some true ∧
      is_any_token_and_user_is_kyc_verified t = some true) ∧
    ¬(is_any_token_and_user_is_phone_but_not_kyc_verified t = some true ∧
      is_any_token_and_user_is_kyc_business_verified t = some true) ∧
    (is_user_and_any_token t = some true →
      user_individual_kyc_is_verified t = some true →
      is_any_token_and_user_is_kyc_verified t = some true ∧
      is_any_token_and_user_is_phone_but_not_kyc_verified t = some false) := by
  refine ⟨?_, ?_, ?_, ?_, ?_⟩
  · rintro ⟨h0, h1⟩
    obtain ⟨-, hph0, -⟩ := tier0_inv t h0
    obtain ⟨-, hph1, -, -⟩ := tier1_inv t h1
    exact absurd (hph0.symm.trans hph1) (by simp)
  · rintro ⟨h0, h2⟩
    obtain ⟨-, -, hk0⟩ := tier0_inv t h0
    obtain ⟨-, hk2⟩ := tier2_inv t h2
    exact absurd (hk0.symm.trans hk2) (by simp)
  · rintro ⟨h1, h2⟩
    obtain ⟨-, -, hk1, -⟩ := tier1_inv t h1
    obtain ⟨-, hk2⟩ := tier2_inv t h2
    exact absurd (hk1.symm.trans hk2) (by simp)
  · rintro ⟨h1, h3⟩
    obtain ⟨-, -, -, hb1⟩ := tier1_inv t h1
    obtain ⟨-, hb3⟩ := tier3_inv t h3
    exact absurd (hb1.symm.trans hb3) (by simp)
  · intro hAny hIndiv
    constructor
    · unfold is_any_token_and_user_is_kyc_verified
      exact (pyAnd_eq_some_true _ _).mpr ⟨hAny, hIndiv⟩
    · have hSome := tier1_isSome t
      cases hT1 : is_any_token_and_user_is_phone_but_not_kyc_verified t with
      | none => rw [hT1] at hSome; simp at hSome
      | some b =>
        cases b with
        | true =>
          obtain ⟨-, -, hk1, -⟩ := tier1_inv t hT1
          exact absurd (hk1.symm.trans hIndiv) (by simp)
        | false => rfl

/-- Witness for C7 (amended): the phone-verified sender of `tPhone` sits in
Tier 1; after individual KYC verification (`tPhoneKyc`) the Tier-2 predicate
holds and the Tier-1 predicate no longer does. -/
theorem C7_witness :
    is_any_token_and_user_is_phone_but_not_kyc_verified tPhone = some true ∧
    is_any_token_and_user_is_kyc_verified tPhoneKyc = some true ∧
    is_any_token_and_user_is_phone_but_not_kyc_verified tPhoneKyc =
      some false := by
  have h := (C7_tier_exclusivity_amended tPhoneKyc).2.2.2.2
    (by decide) (by decide)
  exact ⟨by decide, h.1, h.2⟩

/-- Counterexample for C7: a sender with a verified BUSINESS KYC application
and no phone verification satisfies both the tier-0 (unverified) and the
tier-3 (business-verified) composite predicates at once, and
`get_transfer_limits` then returns the Level 0 and the Level 3 rules
together. -/
theorem C7_counterexample :
    is_any_token_and_user_is_not_phone_and_not_kyc_verified tBiz = some true ∧
    is_any_token_and_user_is_kyc_business_verified tBiz = some true ∧
    (get_transfer_limits cfg0 tBiz).map (fun ls => ls.map TransferLimit.name) =
      some ["Sempo Level 0: P7", "Sempo Level 0: P30",
            "Sempo Level 3: P7", "Sempo Level 3: P30"] := by
  refine ⟨by decide, by decide, by decide⟩

theorem cfg0_pyInt_50 : pyInt (50 * cfg0.LIMIT_EXCHANGE_RATE) = 50 := by
  norm_num [pyInt, Rat.floor_def', cfg0]

/-- C2: a `MaximumAmountPerTransferLimit` whose scaled ceiling is
`C = int(maximum_amount * LIMIT_EXCHANGE_RATE)` lets an applicable transfer
pass `validate_transfer` exactly when its amount is at most `C`, and raises
`MaximumPerTransferLimitError` when the amount exceeds `C`. -/
theorem C2_maximum_amount_per_transfer (cfg : Config) (name : String)
    (ats : List AppliedTo) (af : CreditTransfer → Option Bool)
    (maximum_amount : Rat) (env : LimitEnv) (t : CreditTransfer)
    (_happ : (MaximumAmountPerTransferLimit cfg name ats af
      maximum_amount).applies_to_transfer t = some true) :
    (TransferLimit.validate_transfer env
        (MaximumAmountPerTransferLimit cfg name ats af maximum_amount) t =
          ValidationResult.ok ↔
      t.transfer_amount ≤ pyInt (maximum_amount * cfg.LIMIT_EXCHANGE_RATE)) ∧
    (pyInt (maximum_amount * cfg.LIMIT_EXCHANGE_RATE) < t.transfer_amount →
      TransferLimit.validate_transfer env
          (MaximumAmountPerTransferLimit cfg name ats af maximum_amount) t =
        ValidationResult.limitError
          (TransferLimitError.maximumPerTransferLimitError
            (pyInt (maximum_amount * cfg.LIMIT_EXCHANGE_RATE))
            (t.token.map Token.name))) := by
  by_cases hlt : pyInt (maximum_amount * cfg.LIMIT_EXCHANGE_RATE) <
      t.transfer_amount
  · have hval : TransferLimit.validate_transfer env
        (MaximumAmountPerTransferLimit cfg name ats af maximum_amount) t =
          ValidationResult.limitError
            (TransferLimitError.maximumPerTransferLimitError
              (pyInt (maximum_amount * cfg.LIMIT_EXCHANGE_RATE))
              (t.token.map Token.name)) := by
      simp [TransferLimit.validate_transfer, TransferLimit.available,
        TransferLimit.case_will_use, TransferLimit.throw_error,
        MaximumAmountPerTransferLimit, hlt]
    rw [hval]
    constructor
    · constructor
      · intro hcontra; cases hcontra
      · intro hle; omega
    · intro _; rfl
  · have hval : TransferLimit.validate_transfer env
        (MaximumAmountPerTransferLimit cfg name ats af maximum_amount) t =
          ValidationResult.ok := by
      simp [TransferLimit.validate_transfer, TransferLimit.available,
        TransferLimit.case_will_use, TransferLimit.throw_error,
        MaximumAmountPerTransferLimit, hlt]
    rw [hval]
    constructor
    · constructor
      · intro _; omega
      · intro _; rfl
    · intro hcontra; omega

/-- Witness for C2: `limC2` has scaled ceiling 50; an applicable withdrawal
of 50 passes, and one of 51 raises `MaximumPerTransferLimitError`. -/
theorem C2_witness :
    TransferLimit.validate_transfer (envBal 50 0) limC2 (tBal 50 0) =
      ValidationResult.ok ∧
    TransferLimit.validate_transfer (envBal 51 0) limC2 (tBal 51 0) =
      ValidationResult.limitError
        (TransferLimitError.maximumPerTransferLimitError 50 (some "GE")) := by
  constructor
  · exact (C2_maximum_amount_per_transfer cfg0
      "GE Liquid Token - Group Account User"
      [AGENT_OUT_PAYMENT, AppliedTo.ty TransferTypeEnum.WITHDRAWAL]
      is_group_and_liquid_token 50 (envBal 50 0) (tBal 50 0)
      (by decide)).1.mpr (by rw [cfg0_pyInt_50]; decide)
  · have h2 := (C2_maximum_amount_per_transfer cfg0
      "GE Liquid Token - Group Account User"
      [AGENT_OUT_PAYMENT, AppliedTo.ty TransferTypeEnum.WITHDRAWAL]
      is_group_and_liquid_token 50 (envBal 51 0) (tBal 51 0)
      (by decide)).2 (by rw [cfg0_pyInt_50]; decide)
    rw [cfg0_pyInt_50] at h2
    exact h2

/-- C3: for a `TotalAmountLimit` with window 7 days and scaled ceiling
`C = int(total_amount * LIMIT_EXCHANGE_RATE)`, with the freshly persisted
in-flight transfer at the head of the table and matching its own aggregation
filters, validation passes exactly when the matching prior sum `S` plus the
transfer amount stays within `C`; it raises `TransferAmountLimitError`
otherwise, and rows created more than 7 days ago contribute nothing to
`S`. -/
theorem C3_total_amount_limit_window (cfg : Config) (name : String)
    (ats : List AppliedTo) (af : CreditTransfer → Option Bool)
    (total_amount : Rat) (f : AggregationFilter) (t : CreditTransfer)
    (prior old : List CreditTransfer) (now : Int)
    (hSelf : rowSelected now 7 f.toFilter t t = true)
    (hOld : ∀ r ∈ old, r.created < now - 7) :
    (TransferLimit.validate_transfer ⟨t :: prior, now⟩
        (TotalAmountLimit cfg name ats af 7 total_amount f) t =
          ValidationResult.ok ↔
      selectedSum ⟨prior, now⟩ 7 f.toFilter t + t.transfer_amount ≤
        pyInt (total_amount * cfg.LIMIT_EXCHANGE_RATE)) ∧
    (¬(selectedSum ⟨prior, now⟩ 7 f.toFilter t + t.transfer_amount ≤
        pyInt (total_amount * cfg.LIMIT_EXCHANGE_RATE)) →
      TransferLimit.validate_transfer ⟨t :: prior, now⟩
          (TotalAmountLimit cfg name ats af 7 total_amount f) t =
        ValidationResult.limitError
          (TransferLimitError.transferAmountLimitError
            (pyInt (total_amount * cfg.LIMIT_EXCHANGE_RATE))
            (pyInt (total_amount * cfg.LIMIT_EXCHANGE_RATE) -
              selectedSum ⟨prior, now⟩ 7 f.toFilter t)
            7 (t.token.map Token.name))) ∧
    (selectedSum ⟨prior ++ old, now⟩ 7 f.toFilter t =
      selectedSum ⟨prior, now⟩ 7 f.toFilter t) := by
  have hused := used_aggregator_amount_cons t prior now 7 f hSelf
  have hval : TransferLimit.validate_transfer ⟨t :: prior, now⟩
      (TotalAmountLimit cfg name ats af 7 total_amount f) t =
      (if pyInt (total_amount * cfg.LIMIT_EXCHANGE_RATE) -
          selectedSum ⟨prior, now⟩ 7 f.toFilter t < t.transfer_amount then
        ValidationResult.limitError
          (TransferLimitError.transferAmountLimitError
            (pyInt (total_amount * cfg.LIMIT_EXCHANGE_RATE))
            (pyInt (total_amount * cfg.LIMIT_EXCHANGE_RATE) -
              selectedSum ⟨prior, now⟩ 7 f.toFilter t)
            7 (t.token.map Token.name))
      else ValidationResult.ok) := by
    simp [TransferLimit.validate_transfer, TransferLimit.available,
      TransferLimit.case_will_use, TransferLimit.throw_error,
      TotalAmountLimit, hused]
  refine ⟨?_, ?_, ?_⟩
  · rw [hval]
    by_cases hlt : pyInt (total_amount * cfg.LIMIT_EXCHANGE_RATE) -
        selectedSum ⟨prior, now⟩ 7 f.toFilter t < t.transfer_amount
    · rw [if_pos hlt]
      constructor
      · intro hcontra; cases hcontra
      · intro hle; omega
    · rw [if_neg hlt]
      constructor
      · intro _; omega
      · intro _; rfl
  · intro hgt
    rw [hval, if_pos (by omega)]
  · unfold selectedSum
    rw [query_rows_append_stale t prior old now 7 f.toFilter hOld]

/-- Witness for C3: ceiling 50, window usage 20, amount 30 passes; the
row created at day 1 (more than 7 days before day 10) changes nothing. -/
theorem C3_witness :
    TransferLimit.validate_transfer ⟨[tPay 30, pPay 20 8], 10⟩ limC3
      (tPay 30) = ValidationResult.ok ∧
    selectedSum ⟨[pPay 20 8, pPay 100 1], 10⟩ 7
        AggregationFilter.matchingTransferType.toFilter (tPay 30) =
      selectedSum ⟨[pPay 20 8], 10⟩ 7
        AggregationFilter.matchingTransferType.toFilter (tPay 30) := by
  have h := C3_total_amount_limit_window cfg0 "Sempo Level 1: P7"
    GENERAL_PAYMENTS is_any_token_and_user_is_phone_but_not_kyc_verified 50
    AggregationFilter.matchingTransferType (tPay 30) [pPay 20 8]
    [pPay 100 1] 10 (by decide) (by decide)
  exact ⟨h.1.mpr (by rw [cfg0_pyInt_50]; decide), h.2.2⟩

/-- C4: for a `TransferCountLimit` with count `N` and window 30 days, with
the freshly persisted in-flight transfer at the head of the table and
matching its own aggregation filters, the aggregated count includes the
in-flight transfer once and `used_aggregator` subtracts exactly 1, so the
transfer passes exactly when it is at most the `N`-th matching transfer of
the window (`k` prior matches with `k + 1 ≤ N`), and the `(N+1)`-th raises
`TransferCountLimitError`. -/
theorem C4_transfer_count_limit (name : String) (ats : List AppliedTo)
    (af : CreditTransfer → Option Bool) (N : Int) (f : AggregationFilter)
    (t : CreditTransfer) (prior : List CreditTransfer) (now : Int)
    (hSelf : rowSelected now 30 f.toFilter t t = true) :
    (TransferLimit.validate_transfer ⟨t :: prior, now⟩
        (TransferCountLimit name ats af 30 N f) t = ValidationResult.ok ↔
      ((query_rows ⟨prior, now⟩ 30 f.toFilter t).length : Int) + 1 ≤ N) ∧
    (¬(((query_rows ⟨prior, now⟩ 30 f.toFilter t).length : Int) + 1 ≤ N) →
      TransferLimit.validate_transfer ⟨t :: prior, now⟩
          (TransferCountLimit name ats af 30 N f) t =
        ValidationResult.limitError
          (TransferLimitError.transferCountLimitError N 30
            (t.token.map Token.name))) := by
  have hused := used_aggregator_count_cons t prior now 30 f hSelf
  have hval : TransferLimit.validate_transfer ⟨t :: prior, now⟩
      (TransferCountLimit name ats af 30 N f) t =
      (if N - ((query_rows ⟨prior, now⟩ 30 f.toFilter t).length : Int) < 1 then
        ValidationResult.limitError
          (TransferLimitError.transferCountLimitError N 30
            (t.token.map Token.name))
      else ValidationResult.ok) := by
    simp [TransferLimit.validate_transfer, TransferLimit.available,
      TransferLimit.case_will_use, TransferLimit.throw_error,
      TransferCountLimit, hused]
  constructor
  · rw [hval]
    by_cases hlt : N - ((query_rows ⟨prior, now⟩ 30 f.toFilter t).length : Int) < 1
    · rw [if_pos hlt]
      constructor
      · intro hcontra; cases hcontra
      · intro hle; omega
    · rw [if_neg hlt]
      constructor
      · intro _; omega
      · intro _; rfl
  · intro hgt
    rw [hval, if_pos (by omega)]

/-- Witness for C4: with count 1, the first matching withdrawal of the
window passes, and a second one raises `TransferCountLimitError`. -/
theorem C4_witness :
    TransferLimit.validate_transfer ⟨[tBal 10 1000], 10⟩ limC4
      (tBal 10 1000) = ValidationResult.ok ∧
    TransferLimit.validate_transfer ⟨[tBal 10 1000, tBal 5 1000], 10⟩ limC4
      (tBal 10 1000) =
      ValidationResult.limitError
        (TransferLimitError.transferCountLimitError 1 30 (some "GE")) :=
  ⟨(C4_transfer_count_limit "GE Liquid Token - Group Account User"
      [AGENT_OUT_PAYMENT, AppliedTo.ty TransferTypeEnum.WITHDRAWAL]
      is_group_and_liquid_token 1
      AggregationFilter.withdrawalOrAgentOutAndNotExcluded
      (tBal 10 1000) [] 10 (by decide)).1.mpr (by decide),
   (C4_transfer_count_limit "GE Liquid Token - Group Account User"
      [AGENT_OUT_PAYMENT, AppliedTo.ty TransferTypeEnum.WITHDRAWAL]
      is_group_and_liquid_token 1
      AggregationFilter.withdrawalOrAgentOutAndNotExcluded
      (tBal 10 1000) [tBal 5 1000] 10 (by decide)).2 (by decide)⟩

theorem half_of_500 : total_from_balance (1 / 2) 500 = 250 := by
  norm_num [total_from_balance, pyInt, Rat.floor_def']

theorem half_of_498 : total_from_balance (1 / 2) 498 = 249 := by
  norm_num [total_from_balance, pyInt, Rat.floor_def']

/-- C5: for a `BalanceFractionLimit`, the available ceiling is
`int(balance_fraction * balance)` computed from the balance carried by the
transfer being validated (nothing is cached on the limit); with the freshly
persisted in-flight transfer at the head of the table and matching its own
aggregation filters, validation passes exactly when the matching prior sum
plus the transfer amount stays within that ceiling, and raises
`TransferBalanceFractionLimitError` otherwise. -/
theorem C5_balance_fraction_limit (name : String) (ats : List AppliedTo)
    (af : CreditTransfer → Option Bool) (d : Int) (frac : Rat)
    (f : AggregationFilter) (t : CreditTransfer)
    (prior : List CreditTransfer) (now : Int)
    (hSelf : rowSelected now d f.toFilter t t = true) :
    (TransferLimit.validate_transfer ⟨t :: prior, now⟩
        (BalanceFractionLimit name ats af d frac f) t =
          ValidationResult.ok ↔
      selectedSum ⟨prior, now⟩ d f.toFilter t + t.transfer_amount ≤
        total_from_balance frac t.sender_transfer_account_balance) ∧
    (¬(selectedSum ⟨prior, now⟩ d f.toFilter t + t.transfer_amount ≤
        total_from_balance frac t.sender_transfer_account_balance) →
      TransferLimit.validate_transfer ⟨t :: prior, now⟩
          (BalanceFractionLimit name ats af d frac f) t =
        ValidationResult.limitError
          (TransferLimitError.transferBalanceFractionLimitError frac
            (total_from_balance frac t.sender_transfer_account_balance -
              selectedSum ⟨prior, now⟩ d f.toFilter t)
            d (t.token.map Token.name))) := by
  have hused := used_aggregator_amount_cons t prior now d f hSelf
  have hval : TransferLimit.validate_transfer ⟨t :: prior, now⟩
      (BalanceFractionLimit name ats af d frac f) t =
      (if total_from_balance frac t.sender_transfer_account_balance -
          selectedSum ⟨prior, now⟩ d f.toFilter t < t.transfer_amount then
        ValidationResult.limitError
          (TransferLimitError.transferBalanceFractionLimitError frac
            (total_from_balance frac t.sender_transfer_account_balance -
              selectedSum ⟨prior, now⟩ d f.toFilter t)
            d (t.token.map Token.name))
      else ValidationResult.ok) := by
    simp [TransferLimit.validate_transfer, TransferLimit.available,
      TransferLimit.case_will_use, TransferLimit.throw_error,
      BalanceFractionLimit, hused]
  constructor
  · rw [hval]
    by_cases hlt : total_from_balance frac t.sender_transfer_account_balance -
        selectedSum ⟨prior, now⟩ d f.toFilter t < t.transfer_amount
    · rw [if_pos hlt]
      constructor
      · intro hcontra; cases hcontra
      · intro hle; omega
    · rw [if_neg hlt]
      constructor
      · intro _; omega
      · intro _; rfl
  · intro hgt
    rw [hval, if_pos (by omega)]

/-- Witness for C5: with fraction one half and zero prior window usage, a
withdrawal of 250 against balance 500 passes, one of 251 raises, and after
the balance drops to 498 the same limit instance rejects 250 at the very
next validation. -/
theorem C5_witness :
    TransferLimit.validate_transfer (envBal 250 500) limC5 (tBal 250 500) =
      ValidationResult.ok ∧
    TransferLimit.validate_transfer (envBal 251 500) limC5 (tBal 251 500) =
      ValidationResult.limitError
        (TransferLimitError.transferBalanceFractionLimitError (1 / 2) 250 30
          (some "GE")) ∧
    TransferLimit.validate_transfer (envBal 250 498) limC5 (tBal 250 498) =
      ValidationResult.limitError
        (TransferLimitError.transferBalanceFractionLimitError (1 / 2) 249 30
          (some "GE")) := by
  refine ⟨?_, ?_, ?_⟩
  · refine (C5_balance_fraction_limit "GE Liquid Token - Group Account User"
      [AGENT_OUT_PAYMENT, AppliedTo.ty TransferTypeEnum.WITHDRAWAL]
      is_group_and_liquid_token 30 (1 / 2)
      AggregationFilter.matchingTransferType
      (tBal 250 500) [] 10 (by decide)).1.mpr ?_
    have e : (tBal 250 500).sender_transfer_account_balance = 500 := rfl
    rw [e, half_of_500]
    decide
  · have h := (C5_balance_fraction_limit "GE Liquid Token - Group Account User"
      [AGENT_OUT_PAYMENT, AppliedTo.ty TransferTypeEnum.WITHDRAWAL]
      is_group_and_liquid_token 30 (1 / 2)
      AggregationFilter.matchingTransferType
      (tBal 251 500) [] 10 (by decide)).2 ?_
    · have e : (tBal 251 500).sender_transfer_account_balance = 500 := rfl
      rw [e, half_of_500] at h
      have e0 : selectedSum ⟨[], 10⟩ 30
          AggregationFilter.matchingTransferType.toFilter (tBal 251 500) = 0 :=
        rfl
      rw [e0] at h
      norm_num at h
      exact h
    · have e : (tBal 251 500).sender_transfer_account_balance = 500 := rfl
      rw [e, half_of_500]
      decide
  · have h := (C5_balance_fraction_limit "GE Liquid Token - Group Account User"
      [AGENT_OUT_PAYMENT, AppliedTo.ty TransferTypeEnum.WITHDRAWAL]
      is_group_and_liquid_token 30 (1 / 2)
      AggregationFilter.matchingTransferType
      (tBal 250 498) [] 10 (by decide)).2 ?_
    · have e : (tBal 250 498).sender_transfer_account_balance = 498 := rfl
      rw [e, half_of_498] at h
      have e0 : selectedSum ⟨[], 10⟩ 30
          AggregationFilter.matchingTransferType.toFilter (tBal 250 498) = 0 :=
        rfl
      rw [e0] at h
      norm_num at h
      exact h
    · have e : (tBal 250 498).sender_transfer_account_balance = 498 := rfl
      rw [e, half_of_498]
      decide

theorem rowSelected_regular_payment_self_false (now d : Int)
    (t : CreditTransfer)
    (h : t.transfer_subtype ≠ some TransferSubTypeEnum.STANDARD) :
    rowSelected now d AggregationFilter.regularPayment.toFilter t t = false := by
  simp [rowSelected, combine_filter_lists, matching_sender_user_filter,
    not_rejected_filter, after_time_period_filter, AggregationFilter.toFilter,
    regular_payment_filter, h]

/-- C9 (amended): for a `MinimumSentLimit` with the default reference filter
(`regular_payment_filter`), the available base is the windowed sum of the
sender's non-rejected transfers whose SUBTYPE is Standard — regardless of
their transfer type, unlike the claim's "type Payment with subtype
Standard" — so, with the freshly persisted in-flight transfer (itself not of
Standard subtype) at the head of the table and matching its own aggregation
filters, validation passes exactly when the matching prior sum plus the
transfer amount stays within that base, and raises `MinimumSentLimitError`
otherwise. -/
theorem C9_minimum_sent_amended (name : String) (ats : List AppliedTo)
    (af : CreditTransfer → Option Bool) (d : Int) (f : AggregationFilter)
    (t : CreditTransfer) (prior : List CreditTransfer) (now : Int)
    (hSelf : rowSelected now d f.toFilter t t = true)
    (hNotStd : t.transfer_subtype ≠ some TransferSubTypeEnum.STANDARD) :
    (TransferLimit.validate_transfer ⟨t :: prior, now⟩
        (MinimumSentLimit name ats af d f AggregationFilter.regularPayment) t =
          ValidationResult.ok ↔
      selectedSum ⟨prior, now⟩ d f.toFilter t + t.transfer_amount ≤
        selectedSum ⟨prior, now⟩ d
          AggregationFilter.regularPayment.toFilter t) ∧
    (¬(selectedSum ⟨prior, now⟩ d f.toFilter t + t.transfer_amount ≤
        selectedSum ⟨prior, now⟩ d
          AggregationFilter.regularPayment.toFilter t) →
      TransferLimit.validate_transfer ⟨t :: prior, now⟩
          (MinimumSentLimit name ats af d f
            AggregationFilter.regularPayment) t =
        ValidationResult.limitError
          (TransferLimitError.minimumSentLimitError
            (selectedSum ⟨prior, now⟩ d
              AggregationFilter.regularPayment.toFilter t)
            (selectedSum ⟨prior, now⟩ d
                AggregationFilter.regularPayment.toFilter t -
              selectedSum ⟨prior, now⟩ d f.toFilter t)
            d (t.token.map Token.name))) := by
  have hused := used_aggregator_amount_cons t prior now d f hSelf
  have hbase := minimum_sent_base_cons_not_ref t prior now d
    AggregationFilter.regularPayment
    (rowSelected_regular_payment_self_false now d t hNotStd)
  have hval : TransferLimit.validate_transfer ⟨t :: prior, now⟩
      (MinimumSentLimit name ats af d f AggregationFilter.regularPayment) t =
      (if selectedSum ⟨prior, now⟩ d
            AggregationFilter.regularPayment.toFilter t -
          selectedSum ⟨prior, now⟩ d f.toFilter t < t.transfer_amount then
        ValidationResult.limitError
          (TransferLimitError.minimumSentLimitError
            (selectedSum ⟨prior, now⟩ d
              AggregationFilter.regularPayment.toFilter t)
            (selectedSum ⟨prior, now⟩ d
                AggregationFilter.regularPayment.toFilter t -
              selectedSum ⟨prior, now⟩ d f.toFilter t)
            d (t.token.map Token.name))
      else ValidationResult.ok) := by
    simp [TransferLimit.validate_transfer, TransferLimit.available,
      TransferLimit.case_will_use, TransferLimit.throw_error,
      MinimumSentLimit, hused, hbase]
  constructor
  · rw [hval]
    by_cases hlt : selectedSum ⟨prior, now⟩ d
          AggregationFilter.regularPayment.toFilter t -
        selectedSum ⟨prior, now⟩ d f.toFilter t < t.transfer_amount
    · rw [if_pos hlt]
      constructor
      · intro hcontra; cases hcontra
      · intro hle; omega
    · rw [if_neg hlt]
      constructor
      · intro _; omega
      · intro _; rfl
  · intro hgt
    rw [hval, if_pos (by omega)]

/-- Witness for C9 (amended): the windowed Standard-subtype sum of 100 set
by the DEPOSIT row lets the withdrawal of 100 pass. -/
theorem C9_witness :
    TransferLimit.validate_transfer envC9 limC9 tWd = ValidationResult.ok :=
  (C9_minimum_sent_amended "GE Liquid Token - Group Account User"
    [AGENT_OUT_PAYMENT, AppliedTo.ty TransferTypeEnum.WITHDRAWAL]
    is_group_and_liquid_token 30 AggregationFilter.matchingTransferType
    tWd [pDep] 10 (by decide) (by decide)).1.mpr (by decide)

/-- Counterexample for C9 as stated: `limC9` applies to the withdrawal
`tWd`, validation passes, yet the sender's windowed sum of transfers of type
Payment with subtype Standard is 0 and the transfer amount is 100 — by the
claim the transfer would have to fail (0 + 100 > 0).  The reference filter
of the code counts the DEPOSIT row because it only constrains the
subtype. -/
theorem C9_counterexample :
    limC9.applies_to_transfer tWd = some true ∧
    TransferLimit.validate_transfer envC9 limC9 tWd = ValidationResult.ok ∧
    spec_standard_payment_sum envC9 30 tWd = 0 ∧
    tWd.transfer_amount = 100 :=
  ⟨by decide, by decide, by decide, rfl⟩

/-- C10: for the amount-aggregating limits, `used_aggregator` raises a
`TypeError` (`None - int`) exactly when no persisted row matches the
aggregation filters; it is total as soon as the in-flight transfer is
persisted and matches its own filter; and `MinimumSentLimit.available_base`
instead coalesces the empty-sum `NULL` to 0. -/
theorem C10_used_aggregator_partiality (env : LimitEnv) (d : Int)
    (f : AggregationFilter) (t : CreditTransfer) :
    (used_aggregator_amount env d f t = none ↔
      query_rows env d f.toFilter t = []) ∧
    (t ∈ env.rows → rowSelected env.now d f.toFilter t t = true →
      (used_aggregator_amount env d f t).isSome) ∧
    (query_rows env d f.toFilter t = [] →
      minimum_sent_available_base env d f t = 0) := by
  refine ⟨?_, ?_, ?_⟩
  · unfold used_aggregator_amount
    rw [Option.map_eq_none']
    exact sqlSumAmount_eq_none _
  · intro hmem hsel
    have hin : t ∈ query_rows env d f.toFilter t := by
      rw [query_rows_eq_filter]
      exact List.mem_filter.mpr ⟨hmem, hsel⟩
    unfold used_aggregator_amount
    cases hq : query_rows env d f.toFilter t with
    | nil => rw [hq] at hin; cases hin
    | cons a l => simp [hq, sqlSumAmount]
  · intro h
    unfold minimum_sent_available_base
    rw [h]
    rfl

/-- Witness for C10: over an empty table the aggregator raises (`none`)
while the minimum-sent base is 0; over the table that already holds the
in-flight withdrawal, the aggregator is total. -/
theorem C10_witness :
    used_aggregator_amount ⟨[], 0⟩ 30 AggregationFilter.matchingTransferType
      tWd = none ∧
    minimum_sent_available_base ⟨[], 0⟩ 30
      AggregationFilter.matchingTransferType tWd = 0 ∧
    (used_aggregator_amount envC9 30 AggregationFilter.matchingTransferType
      tWd).isSome := by
  refine ⟨?_, ?_, ?_⟩
  · exact (C10_used_aggregator_partiality ⟨[], 0⟩ 30
      AggregationFilter.matchingTransferType tWd).1.mpr rfl
  · exact (C10_used_aggregator_partiality ⟨[], 0⟩ 30
      AggregationFilter.matchingTransferType tWd).2.2 rfl
  · exact (C10_used_aggregator_partiality envC9 30
      AggregationFilter.matchingTransferType tWd).2.1 (by decide) (by decide)

end Sempo
